import Mathlib

/-!
Verification of `drivers/mmc/core/pwrseq_simple.c` (simple MMC power
sequence management).  The driver state is embedded as a Lean structure;
the side effects of each operation (clock enable/disable, GPIO group
writes, sleeps, regulator calls) are recorded as an explicit event trace.
Machine pointers that may hold an `ERR_PTR` are embedded as
`Except Int Unit` (resp. `Except Int Nat` for the GPIO descriptor array,
whose payload is the number of descriptors `ndescs`); the error payload is
the negative errno from `PTR_ERR`.
-/

deriving instance DecidableEq for Except

namespace PwrseqSimple

/-- Kernel errno values used by the driver (as positive numbers; an
`ERR_PTR` carries the negated value). -/
def ENOENT : Int := 2

def ENOSYS : Int := 38

def ENOMEM : Int := 12

/-- Observable side effects of the driver, in program order.  A GPIO
group write records the number of lines and the bitmap of values written
(one Bool per line, as produced by `bitmap_fill` / `bitmap_zero`). -/
inductive Event where
  | clkEnable : Event
  | clkDisable : Event
  | gpioSetArray : Nat → List Bool → Event
  | msleep : Nat → Event
  | usleepRange : Nat → Nat → Event
  | regulatorSetVoltage : Int → Int → Event
  deriving DecidableEq, Repr

/-- `struct mmc_pwrseq_simple`: the per-instance driver state.
`ext_clk`, `reset_gpios` and `vref` model possibly-`ERR_PTR` handles;
`reset_gpios`'s success payload is `ndescs`. -/
structure MmcPwrseqSimple where
  clk_enabled : Bool
  post_power_on_delay_ms : Nat
  power_off_delay_us : Nat
  ext_clk : Except Int Unit
  reset_gpios : Except Int Nat
  vref : Except Int Unit
  deriving DecidableEq, Repr

/-- `!IS_ERR(p)` for an embedded handle. -/
def notErr {α : Type} : Except Int α → Bool
  | Except.ok _ => true
  | Except.error _ => false

/-- `mmc_pwrseq_simple_set_gpios_value`: if the GPIO group handle is not
an error, allocate a transient bitmap (allocation success is the oracle
`allocOk`), fill it with `value` replicated, and perform a single group
write; on allocation failure, or when the group is absent, do nothing.
The function mutates no driver state, so it returns only the trace. -/
def mmc_pwrseq_simple_set_gpios_value (pwrseq : MmcPwrseqSimple) (value : Int)
    (allocOk : Bool) : List Event :=
  match pwrseq.reset_gpios with
  | Except.error _ => []
  | Except.ok nvalues =>
      if allocOk then
        [Event.gpioSetArray nvalues
          (List.replicate nvalues (if value ≠ 0 then true else false))]
      else []

/-- `mmc_pwrseq_simple_pre_power_on`: enable the external clock when it
exists and is not yet enabled, then drive all reset GPIOs to 1. -/
def mmc_pwrseq_simple_pre_power_on (pwrseq : MmcPwrseqSimple)
    (allocOk : Bool) : MmcPwrseqSimple × List Event :=
  let (pwrseq, ev) :=
    if notErr pwrseq.ext_clk ∧ ¬ pwrseq.clk_enabled then
      ({ pwrseq with clk_enabled := true }, [Event.clkEnable])
    else (pwrseq, [])
  (pwrseq, ev ++ mmc_pwrseq_simple_set_gpios_value pwrseq 1 allocOk)

/-- `mmc_pwrseq_simple_post_power_on`: drive all reset GPIOs to 0, then
sleep `post_power_on_delay_ms` milliseconds when that delay is nonzero. -/
def mmc_pwrseq_simple_post_power_on (pwrseq : MmcPwrseqSimple)
    (allocOk : Bool) : MmcPwrseqSimple × List Event :=
  (pwrseq,
    mmc_pwrseq_simple_set_gpios_value pwrseq 0 allocOk ++
      (if pwrseq.post_power_on_delay_ms ≠ 0 then
        [Event.msleep pwrseq.post_power_on_delay_ms]
      else []))

/-- `mmc_pwrseq_simple_power_off`: drive all reset GPIOs to 1, sleep a
randomized range from `power_off_delay_us` to `2 * power_off_delay_us`
when the delay is nonzero, then disable the clock when it exists and is
enabled.  `power_off_delay_us` is a `u32`, so the upper bound
`2 * power_off_delay_us` is computed in 32-bit unsigned arithmetic and
wraps modulo 2^32. -/
def mmc_pwrseq_simple_power_off (pwrseq : MmcPwrseqSimple)
    (allocOk : Bool) : MmcPwrseqSimple × List Event :=
  let ev1 := mmc_pwrseq_simple_set_gpios_value pwrseq 1 allocOk
  let ev2 :=
    if pwrseq.power_off_delay_us ≠ 0 then
      [Event.usleepRange pwrseq.power_off_delay_us
        (2 * pwrseq.power_off_delay_us % 2 ^ 32)]
    else []
  if notErr pwrseq.ext_clk ∧ pwrseq.clk_enabled then
    ({ pwrseq with clk_enabled := false }, ev1 ++ ev2 ++ [Event.clkDisable])
  else (pwrseq, ev1 ++ ev2)

/-- `sysfs_streq`: string equality modulo one trailing newline on either
side (transcribed from `lib/string_helpers.c`). -/
def sysfs_streq : List Char → List Char → Bool
  | [], [] => true
  | [], [c] => c = '\n'
  | [c], [] => c = '\n'
  | c1 :: t1, c2 :: t2 => c1 = c2 && sysfs_streq t1 t2
  | _, _ => false

/-- `pwr_gpio_show`: emit "on" or "off" (with trailing newline) after the
`clk_enabled` flag. -/
def pwr_gpio_show (pwrseq : MmcPwrseqSimple) : List Char :=
  if pwrseq.clk_enabled then ['o', 'n', '\n'] else ['o', 'f', 'f', '\n']

/-- `pwr_gpio_store`: parse the token with `sysfs_streq`; "on"/"1" runs a
synthetic power-on (conditional clock enable, reset 1 then 0, conditional
msleep), "off"/"0" runs the power-off body; anything else just returns
`count`.  `allocOk1`/`allocOk2` are the allocation oracles for the first
and second GPIO writes.  Returns (new state, trace, return value). -/
def pwr_gpio_store (pwrseq : MmcPwrseqSimple) (buf : List Char)
    (allocOk1 allocOk2 : Bool) (count : Nat) :
    MmcPwrseqSimple × List Event × Nat :=
  if sysfs_streq buf ['o', 'n'] || sysfs_streq buf ['1'] then
    let (pwrseq, ev) :=
      if notErr pwrseq.ext_clk ∧ ¬ pwrseq.clk_enabled then
        ({ pwrseq with clk_enabled := true }, [Event.clkEnable])
      else (pwrseq, [])
    let ev := ev ++ mmc_pwrseq_simple_set_gpios_value pwrseq 1 allocOk1
    let ev := ev ++ mmc_pwrseq_simple_set_gpios_value pwrseq 0 allocOk2
    let ev := ev ++
      (if pwrseq.post_power_on_delay_ms ≠ 0 then
        [Event.msleep pwrseq.post_power_on_delay_ms]
      else [])
    (pwrseq, ev, count)
  else if sysfs_streq buf ['o', 'f', 'f'] || sysfs_streq buf ['0'] then
    let ev1 := mmc_pwrseq_simple_set_gpios_value pwrseq 1 allocOk1
    let ev2 :=
      if pwrseq.power_off_delay_us ≠ 0 then
        [Event.usleepRange pwrseq.power_off_delay_us
          (2 * pwrseq.power_off_delay_us % 2 ^ 32)]
      else []
    if notErr pwrseq.ext_clk ∧ pwrseq.clk_enabled then
      ({ pwrseq with clk_enabled := false },
        ev1 ++ ev2 ++ [Event.clkDisable], count)
    else (pwrseq, ev1 ++ ev2, count)
  else (pwrseq, [], count)

/-- Two's-complement truncation of an integer to `w` bits (the effect of
a C cast to a `w`-bit signed type). -/
def toSigned (w : Nat) (i : Int) : Int :=
  let m := i % (2 ^ w : Int)
  if m < 2 ^ (w - 1) then m else m - 2 ^ w

/-- Consume a maximal run of decimal digits: returns (number of digits
consumed, accumulated value, rest).  Models `_parse_integer` (base 10). -/
def parse_integer_go : List Char → Nat → Nat → Nat × Nat × List Char
  | [], n, acc => (n, acc, [])
  | c :: t, n, acc =>
      if c.isDigit then parse_integer_go t (n + 1) (acc * 10 + (c.toNat - 48))
      else (n, acc, c :: t)

def parse_integer (s : List Char) : Nat × Nat × List Char :=
  parse_integer_go s 0 0

/-- `kstrtol(s, 10, &res)` on an LP64 machine (long = 64 bit): an
optional sign ('+' only without '-'), at least one digit, an optional
single trailing newline, end of string; out-of-range values give
`-ERANGE` (modelled as `none` like every failure, since the caller only
tests `ret == 0`). -/
def kstrtol (s : List Char) : Option Int :=
  let (neg, s1) := match s with
    | '-' :: t => (true, t)
    | _ => (false, s)
  let s2 := if neg then s1 else
    match s1 with
    | '+' :: t => t
    | _ => s1
  let (n, v, rest) := parse_integer s2
  if n = 0 then none
  else
    let rest2 := match rest with
      | '\n' :: t => t
      | _ => rest
    if rest2 ≠ [] then none
    else
      let val : Int := if neg then -(v : Int) else (v : Int)
      if val < -(2 ^ 63) ∨ val > 2 ^ 63 - 1 then none else some val

/-- Kernel `isspace`: 0x09-0x0d, space, and 0xa0 (see `lib/ctype.c`). -/
def kisspace (c : Char) : Bool :=
  c = ' ' ∨ c = '\t' ∨ c = '\n' ∨ c = '\x0b' ∨ c = '\x0c' ∨ c = '\r' ∨
    c = '\xa0'

def skip_spaces : List Char → List Char
  | [] => []
  | c :: t => if kisspace c then skip_spaces t else c :: t

/-- One `%ld` conversion of the kernel `vsscanf` (LP64): skip whitespace,
require a digit or a '-' followed by a digit, consume the digit run with
`simple_strtol` (which wraps silently modulo 2^64), return the value and
the rest of the input. -/
def scanf_ld (s : List Char) : Option (Int × List Char) :=
  match skip_spaces s with
  | [] => none
  | c :: t =>
      if c.isDigit then
        let (_, v, rest) := parse_integer (c :: t)
        some (toSigned 64 (v : Int), rest)
      else if c = '-' then
        match t with
        | [] => none
        | d :: _ =>
            if d.isDigit then
              let (_, v, rest) := parse_integer t
              some (toSigned 64 (-(v : Int)), rest)
            else none
      else none

/-- `sscanf(buf, "%ld %ld", &min, &max) == 2`: both conversions succeed
(the literal space in the format skips whitespace, which the second
`%ld`'s own whitespace skip subsumes); trailing input is ignored. -/
def sscanf_two_ld (buf : List Char) : Option (Int × Int) :=
  match scanf_ld buf with
  | none => none
  | some (v1, rest) =>
      match scanf_ld rest with
      | none => none
      | some (v2, _) => some (v1, v2)

/-- `vref_uV_show`: "na" when no regulator is bound, otherwise the
regulator's current voltage (supplied by the oracle `uV`) in decimal. -/
def vref_uV_show (pwrseq : MmcPwrseqSimple) (uV : Int) : List Char :=
  match pwrseq.vref with
  | Except.error _ => ['n', 'a', '\n']
  | Except.ok _ => (toString uV).toList ++ ['\n']

/-- `vref_uV_store`: with no regulator bound, return `count` untouched;
otherwise try `kstrtol` (single integer, used as both min and max), then
`sscanf "%ld %ld"`; on success call `regulator_set_voltage` with both
values cast to `int` (32 bit); always return `count`. -/
def vref_uV_store (pwrseq : MmcPwrseqSimple) (buf : List Char)
    (count : Nat) : List Event × Nat :=
  match pwrseq.vref with
  | Except.error _ => ([], count)
  | Except.ok _ =>
      match kstrtol buf with
      | some v =>
          ([Event.regulatorSetVoltage (toSigned 32 v) (toSigned 32 v)], count)
      | none =>
          match sscanf_two_ld buf with
          | some (mn, mx) =>
              ([Event.regulatorSetVoltage (toSigned 32 mn) (toSigned 32 mx)],
                count)
          | none => ([], count)

/-- The environment `mmc_pwrseq_simple_probe` runs in: the results of the
resource acquisitions, the optional configuration properties, and the
result of the final `mmc_pwrseq_register` call. -/
structure ProbeEnv where
  kzalloc_ok : Bool
  ext_clk : Except Int Unit
  reset_gpios : Except Int Nat
  post_power_on_delay_ms : Option Nat
  power_off_delay_us : Option Nat
  vref : Except Int Unit
  register_ret : Int
  deriving DecidableEq, Repr

/-- What `mmc_pwrseq_simple_probe` leaves behind: its return value, which
sysfs attributes were installed, and the constructed state (when the
probe got that far). -/
structure ProbeOutcome where
  ret : Int
  pwr_gpio_attr : Bool
  vref_uV_attr : Bool
  pwrseq : Option MmcPwrseqSimple
  deriving DecidableEq, Repr

/-- `IS_ERR(p) && PTR_ERR(p) not tolerated`: the error code when `p` is
an error pointer outside the tolerated list. -/
def fatal_err {α : Type} (p : Except Int α) (tolerated : List Int) :
    Option Int :=
  match p with
  | Except.ok _ => none
  | Except.error e => if e ∈ tolerated then none else some e

/-- `mmc_pwrseq_simple_probe`: abort with the error of a non-tolerated
clock or GPIO acquisition failure (tolerated: `-ENOENT` for the clock,
`-ENOENT`/`-ENOSYS` for the GPIO group); otherwise build the zero-
initialised state with the configured delays (defaulting to 0), always
install `pwr_gpio`, install `vref_uV` exactly when the regulator was
acquired, and return `mmc_pwrseq_register`'s result. -/
def mmc_pwrseq_simple_probe (env : ProbeEnv) : ProbeOutcome :=
  if env.kzalloc_ok = false then
    { ret := -ENOMEM, pwr_gpio_attr := false, vref_uV_attr := false,
      pwrseq := none }
  else
    match fatal_err env.ext_clk [-ENOENT] with
    | some e =>
        { ret := e, pwr_gpio_attr := false, vref_uV_attr := false,
          pwrseq := none }
    | none =>
        match fatal_err env.reset_gpios [-ENOENT, -ENOSYS] with
        | some e =>
            { ret := e, pwr_gpio_attr := false, vref_uV_attr := false,
              pwrseq := none }
        | none =>
            { ret := env.register_ret
              pwr_gpio_attr := true
              vref_uV_attr := notErr env.vref
              pwrseq := some
                { clk_enabled := false
                  post_power_on_delay_ms := env.post_power_on_delay_ms.getD 0
                  power_off_delay_us := env.power_off_delay_us.getD 0
                  ext_clk := env.ext_clk
                  reset_gpios := env.reset_gpios
                  vref := env.vref } }

/-- Any state-visiting invocation on a bound instance: the three
lifecycle callbacks and the two sysfs writes, each with its oracles. -/
inductive Op where
  | preOn (allocOk : Bool)
  | postOn (allocOk : Bool)
  | powerOff (allocOk : Bool)
  | pwrStore (buf : List Char) (allocOk1 allocOk2 : Bool) (count : Nat)
  | vrefStore (buf : List Char) (count : Nat)

/-- The state after one invocation (traces and return values dropped). -/
def runOp (s : MmcPwrseqSimple) : Op → MmcPwrseqSimple
  | Op.preOn a => (mmc_pwrseq_simple_pre_power_on s a).1
  | Op.postOn a => (mmc_pwrseq_simple_post_power_on s a).1
  | Op.powerOff a => (mmc_pwrseq_simple_power_off s a).1
  | Op.pwrStore buf a1 a2 c => (pwr_gpio_store s buf a1 a2 c).1
  | Op.vrefStore _ _ => s

def runOps (s : MmcPwrseqSimple) (ops : List Op) : MmcPwrseqSimple :=
  ops.foldl runOp s

/-! ## Theorems -/

/-- C1: `mmc_pwrseq_simple_pre_power_on` first enables the gating clock
and sets `clk_enabled` to true exactly when a clock handle is present and
`clk_enabled` is currently false, then drives all reset lines to logical
1 in one group write (when the group is present and the transient bitmap
allocation succeeds); the only state change is to `clk_enabled`. -/
theorem pre_power_on_spec (s : MmcPwrseqSimple) (a : Bool) :
    (mmc_pwrseq_simple_pre_power_on s a).1 =
      { s with clk_enabled := s.clk_enabled || notErr s.ext_clk } ∧
    (mmc_pwrseq_simple_pre_power_on s a).2 =
      (if notErr s.ext_clk ∧ ¬ s.clk_enabled then [Event.clkEnable]
        else []) ++
      (match s.reset_gpios with
        | Except.ok n =>
            if a then [Event.gpioSetArray n (List.replicate n true)] else []
        | Except.error _ => []) := by
  obtain ⟨ce, pd, od, ck, rg, vr⟩ := s
  cases ck <;> cases ce <;> cases rg <;> cases a <;>
    simp [mmc_pwrseq_simple_pre_power_on, mmc_pwrseq_simple_set_gpios_value,
      notErr]

/-- A concrete clockless instance whose power-off delay is 2^31
microseconds (a representable u32 value). -/
def wrapState : MmcPwrseqSimple :=
  { clk_enabled := false
    post_power_on_delay_ms := 0
    power_off_delay_us := 2147483648
    ext_clk := Except.error (-ENOENT)
    reset_gpios := Except.error (-ENOENT)
    vref := Except.error (-ENOENT) }

/-- C2 counterexample: with `power_off_delay_us = 2^31`, the source's
u32 multiplication `2 * power_off_delay_us` wraps to 0, so power-off
requests the sleep range [2^31, 0], not the claimed [2^31, 2^32). -/
theorem power_off_wrap_cex :
    (mmc_pwrseq_simple_power_off wrapState true).2 =
      [Event.usleepRange 2147483648 0] ∧
    ¬ (mmc_pwrseq_simple_power_off wrapState true).2 =
      [Event.usleepRange 2147483648 4294967296] := by
  decide

/-- C2 amended: `mmc_pwrseq_simple_power_off` first drives all reset
lines to logical 1, then (when `power_off_delay_us` is nonzero) sleeps a
randomized range from `d` to `2*d` computed in 32-bit unsigned
arithmetic (`2*d mod 2^32`, equal to `2*d` for `d < 2^31`) microseconds,
then disables the clock and clears `clk_enabled` exactly when a clock
handle is present and `clk_enabled` is true; the only state change is to
`clk_enabled`. -/
theorem power_off_spec (s : MmcPwrseqSimple) (a : Bool) :
    (mmc_pwrseq_simple_power_off s a).1 =
      { s with clk_enabled := s.clk_enabled && !(notErr s.ext_clk) } ∧
    (mmc_pwrseq_simple_power_off s a).2 =
      (match s.reset_gpios with
        | Except.ok n =>
            if a then [Event.gpioSetArray n (List.replicate n true)] else []
        | Except.error _ => []) ++
      (if s.power_off_delay_us ≠ 0 then
        [Event.usleepRange s.power_off_delay_us
          (2 * s.power_off_delay_us % 2 ^ 32)]
      else []) ++
      (if notErr s.ext_clk ∧ s.clk_enabled then [Event.clkDisable]
        else []) := by
  obtain ⟨ce, pd, od, ck, rg, vr⟩ := s
  cases ck <;> cases ce <;> cases rg <;> cases a <;>
    simp [mmc_pwrseq_simple_power_off, mmc_pwrseq_simple_set_gpios_value,
      notErr]

/-- A concrete instance with no clock, no reset GPIOs and no regulator
bound (all three acquisitions returned `-ENOENT`), as `probe` builds it. -/
def noClkState : MmcPwrseqSimple :=
  { clk_enabled := false
    post_power_on_delay_ms := 0
    power_off_delay_us := 0
    ext_clk := Except.error (-ENOENT)
    reset_gpios := Except.error (-ENOENT)
    vref := Except.error (-ENOENT) }

/-- A concrete instance with a clock and two reset GPIOs bound. -/
def clkState : MmcPwrseqSimple :=
  { clk_enabled := false
    post_power_on_delay_ms := 7
    power_off_delay_us := 5
    ext_clk := Except.ok ()
    reset_gpios := Except.ok 2
    vref := Except.error (-ENOENT) }

/-- C3 counterexample: on an instance with no gating clock bound,
invoking pre-power-on twice leaves `clk_enabled` false, not true as the
claim states for every sequencer state. -/
theorem pre_twice_no_clk_cex :
    (mmc_pwrseq_simple_pre_power_on
        (mmc_pwrseq_simple_pre_power_on noClkState true).1 true).1.clk_enabled
      = false := by
  decide

/-- C3 amended: invoking pre-power-on twice leaves `clk_enabled` true
when a clock handle is present and unchanged when it is absent, and
emits at most one clock-enable across the two calls; invoking power-off
twice leaves `clk_enabled` false when a clock handle is present and
unchanged when it is absent, and emits at most one clock-disable. -/
theorem pre_off_twice_idem (s : MmcPwrseqSimple) (a1 a2 : Bool) :
    (notErr s.ext_clk = true →
      (mmc_pwrseq_simple_pre_power_on
        (mmc_pwrseq_simple_pre_power_on s a1).1 a2).1.clk_enabled = true) ∧
    (notErr s.ext_clk = false →
      (mmc_pwrseq_simple_pre_power_on
        (mmc_pwrseq_simple_pre_power_on s a1).1 a2).1.clk_enabled
        = s.clk_enabled) ∧
    ((mmc_pwrseq_simple_pre_power_on s a1).2 ++
        (mmc_pwrseq_simple_pre_power_on
          (mmc_pwrseq_simple_pre_power_on s a1).1 a2).2).count Event.clkEnable
      ≤ 1 ∧
    (notErr s.ext_clk = true →
      (mmc_pwrseq_simple_power_off
        (mmc_pwrseq_simple_power_off s a1).1 a2).1.clk_enabled = false) ∧
    (notErr s.ext_clk = false →
      (mmc_pwrseq_simple_power_off
        (mmc_pwrseq_simple_power_off s a1).1 a2).1.clk_enabled
        = s.clk_enabled) ∧
    ((mmc_pwrseq_simple_power_off s a1).2 ++
        (mmc_pwrseq_simple_power_off
          (mmc_pwrseq_simple_power_off s a1).1 a2).2).count Event.clkDisable
      ≤ 1 := by
  obtain ⟨ce, pd, od, ck, rg, vr⟩ := s
  cases ck <;> cases ce <;> cases rg <;> cases a1 <;> cases a2 <;>
    simp [mmc_pwrseq_simple_pre_power_on, mmc_pwrseq_simple_power_off,
      mmc_pwrseq_simple_set_gpios_value, notErr, List.count] <;>
    split <;> simp

/-- C3 amended, witness at a clock-bearing instance. -/
theorem pre_off_twice_idem_witness :
    notErr clkState.ext_clk = true ∧
    (mmc_pwrseq_simple_pre_power_on
      (mmc_pwrseq_simple_pre_power_on clkState true).1 true).1.clk_enabled
      = true ∧
    (mmc_pwrseq_simple_power_off
      (mmc_pwrseq_simple_power_off clkState true).1 true).1.clk_enabled
      = false := by
  have h := pre_off_twice_idem clkState true true
  exact ⟨by decide, h.1 (by decide), h.2.2.2.1 (by decide)⟩

/-- C4: for a target value of 0 or 1, the reset-line driver either
performs a single group write of that value replicated over all lines,
or writes nothing at all; it writes nothing when the group handle is an
error or when the bitmap allocation fails. -/
theorem set_gpios_value_spec (s : MmcPwrseqSimple) (v : Int) (a : Bool)
    (hv : v = 0 ∨ v = 1) :
    (mmc_pwrseq_simple_set_gpios_value s v a = [] ∨
      ∃ n, s.reset_gpios = Except.ok n ∧ a = true ∧
        mmc_pwrseq_simple_set_gpios_value s v a =
          [Event.gpioSetArray n (List.replicate n (decide (v ≠ 0)))]) ∧
    (∀ e, s.reset_gpios = Except.error e →
      mmc_pwrseq_simple_set_gpios_value s v a = []) ∧
    (a = false → mmc_pwrseq_simple_set_gpios_value s v a = []) := by
  obtain ⟨ce, pd, od, ck, rg, vr⟩ := s
  rcases hv with rfl | rfl <;> cases rg <;> cases a <;>
    simp [mmc_pwrseq_simple_set_gpios_value]

/-- C4 witness: allocation failure skips the write entirely. -/
theorem set_gpios_value_spec_witness :
    mmc_pwrseq_simple_set_gpios_value clkState 1 false = [] :=
  (set_gpios_value_spec clkState 1 false (Or.inr rfl)).2.2 rfl

/-- C5: `mmc_pwrseq_simple_post_power_on` changes no state, drives all
reset lines to logical 0, then sleeps exactly `post_power_on_delay_ms`
milliseconds when that delay is nonzero and emits no sleep when it is
zero; and pre-power-on never drives any reset line to 0 (every bit of
every group write it emits is 1). -/
theorem post_power_on_spec (s : MmcPwrseqSimple) (a : Bool) :
    (mmc_pwrseq_simple_post_power_on s a).1 = s ∧
    (mmc_pwrseq_simple_post_power_on s a).2 =
      (match s.reset_gpios with
        | Except.ok n =>
            if a then [Event.gpioSetArray n (List.replicate n false)] else []
        | Except.error _ => []) ++
      (if s.post_power_on_delay_ms ≠ 0 then
        [Event.msleep s.post_power_on_delay_ms]
      else []) ∧
    (∀ n vs, Event.gpioSetArray n vs ∈ (mmc_pwrseq_simple_pre_power_on s a).2 →
      ∀ b ∈ vs, b = true) := by
  obtain ⟨ce, pd, od, ck, rg, vr⟩ := s
  cases ck <;> cases ce <;> cases rg <;> cases a <;>
    simp [mmc_pwrseq_simple_post_power_on, mmc_pwrseq_simple_pre_power_on,
      mmc_pwrseq_simple_set_gpios_value, notErr, List.mem_replicate]

/-- C5 witness: on a two-line instance with a 7 ms delay, post-power-on
writes the all-zero bitmap and then sleeps 7 ms, and pre-power-on's only
group write is the all-one bitmap. -/
theorem post_power_on_spec_witness :
    (mmc_pwrseq_simple_post_power_on clkState true).2 =
      [Event.gpioSetArray 2 [false, false], Event.msleep 7] ∧
    (∀ b ∈ [true, true], b = true) := by
  have h := post_power_on_spec clkState true
  exact ⟨by simpa [clkState] using h.2.1,
    h.2.2 2 [true, true] (by decide)⟩

/-- `sysfs_streq` holds exactly when the strings are equal up to one
trailing newline on either side. -/
theorem sysfs_streq_eq (s1 s2 : List Char) :
    sysfs_streq s1 s2 = true ↔
      s1 = s2 ∨ s1 = s2 ++ ['\n'] ∨ s2 = s1 ++ ['\n'] := by
  induction s1 generalizing s2 with
  | nil =>
      cases s2 with
      | nil => simp [sysfs_streq]
      | cons d u =>
          cases u with
          | nil => simp [sysfs_streq]
          | cons e v => simp [sysfs_streq]
  | cons c t ih =>
      cases s2 with
      | nil => cases t <;> simp [sysfs_streq]
      | cons d u =>
          simp only [sysfs_streq, Bool.and_eq_true, decide_eq_true_eq, ih,
            List.cons_append, List.cons.injEq]
          constructor
          · rintro ⟨rfl, h⟩
            tauto
          · rintro (⟨rfl, rfl⟩ | ⟨rfl, rfl⟩ | ⟨rfl, rfl⟩)
            all_goals tauto

/-- A buffer matching "off"/"0" cannot also match "on"/"1". -/
theorem off_match_not_on (buf : List Char)
    (hOff : (sysfs_streq buf ['o', 'f', 'f'] || sysfs_streq buf ['0'])
      = true) :
    (sysfs_streq buf ['o', 'n'] || sysfs_streq buf ['1']) = false := by
  rcases buf with _ | ⟨a, _ | ⟨b, _ | ⟨c, _ | ⟨d, t⟩⟩⟩⟩ <;>
    simp [sysfs_streq_eq] at hOff ⊢ <;> simp_all <;> decide

/-- C6: `pwr_gpio_store` always returns the full count; an unrecognized
token changes no state and emits no event; "on"/"1" enables the clock
when present and not yet enabled, drives the reset lines to 1 then to 0,
and sleeps the post-power-on delay when nonzero; "off"/"0" behaves as
`mmc_pwrseq_simple_power_off`. -/
theorem pwr_gpio_store_spec (s : MmcPwrseqSimple) (buf : List Char)
    (a1 a2 : Bool) (cnt : Nat) :
    (pwr_gpio_store s buf a1 a2 cnt).2.2 = cnt ∧
    ((sysfs_streq buf ['o', 'n'] || sysfs_streq buf ['1']) = false →
      (sysfs_streq buf ['o', 'f', 'f'] || sysfs_streq buf ['0']) = false →
      (pwr_gpio_store s buf a1 a2 cnt).1 = s ∧
      (pwr_gpio_store s buf a1 a2 cnt).2.1 = []) ∧
    ((sysfs_streq buf ['o', 'n'] || sysfs_streq buf ['1']) = true →
      (pwr_gpio_store s buf a1 a2 cnt).1 =
        { s with clk_enabled := s.clk_enabled || notErr s.ext_clk } ∧
      (pwr_gpio_store s buf a1 a2 cnt).2.1 =
        (if notErr s.ext_clk ∧ ¬ s.clk_enabled then [Event.clkEnable]
          else []) ++
        (match s.reset_gpios with
          | Except.ok n =>
              if a1 then [Event.gpioSetArray n (List.replicate n true)]
              else []
          | Except.error _ => []) ++
        (match s.reset_gpios with
          | Except.ok n =>
              if a2 then [Event.gpioSetArray n (List.replicate n false)]
              else []
          | Except.error _ => []) ++
        (if s.post_power_on_delay_ms ≠ 0 then
          [Event.msleep s.post_power_on_delay_ms]
        else [])) ∧
    ((sysfs_streq buf ['o', 'f', 'f'] || sysfs_streq buf ['0']) = true →
      (pwr_gpio_store s buf a1 a2 cnt).1 =
        (mmc_pwrseq_simple_power_off s a1).1 ∧
      (pwr_gpio_store s buf a1 a2 cnt).2.1 =
        (mmc_pwrseq_simple_power_off s a1).2) := by
  refine ⟨?_, ?_, ?_, ?_⟩
  · simp only [pwr_gpio_store]
    split
    · rfl
    · split
      · split <;> rfl
      · rfl
  · intro h1 h2
    simp [pwr_gpio_store, h1, h2]
  · intro h1
    obtain ⟨ce, pd, od, ck, rg, vr⟩ := s
    cases ck <;> cases ce <;> cases rg <;> cases a1 <;> cases a2 <;>
      simp [pwr_gpio_store, h1, mmc_pwrseq_simple_set_gpios_value, notErr]
  · intro h1
    have h2 := off_match_not_on buf h1
    obtain ⟨ce, pd, od, ck, rg, vr⟩ := s
    cases ck <;> cases ce <;> cases rg <;> cases a1 <;>
      simp [pwr_gpio_store, h1, h2, mmc_pwrseq_simple_power_off,
        mmc_pwrseq_simple_set_gpios_value, notErr]

/-- C6 witness: the unrecognized token "tog" on a fully populated
instance changes nothing, emits nothing, and returns the count. -/
theorem pwr_gpio_store_spec_witness :
    (pwr_gpio_store clkState ['t', 'o', 'g'] true true 3).1 = clkState ∧
    (pwr_gpio_store clkState ['t', 'o', 'g'] true true 3).2.1 = [] ∧
    (pwr_gpio_store clkState ['t', 'o', 'g'] true true 3).2.2 = 3 := by
  have h := pwr_gpio_store_spec clkState ['t', 'o', 'g'] true true 3
  exact ⟨(h.2.1 (by decide) (by decide)).1, (h.2.1 (by decide) (by decide)).2,
    h.1⟩

/-- C7: on any buffer matching "off" or "0", `pwr_gpio_store` returns
exactly the state and trace of `mmc_pwrseq_simple_power_off` (with the
count appended): the sysfs off path and the lifecycle power-off path are
extensionally equal. -/
theorem pwr_gpio_store_off_eq_power_off (s : MmcPwrseqSimple)
    (buf : List Char) (a1 a2 : Bool) (cnt : Nat)
    (hOff : (sysfs_streq buf ['o', 'f', 'f'] || sysfs_streq buf ['0'])
      = true) :
    pwr_gpio_store s buf a1 a2 cnt =
      ((mmc_pwrseq_simple_power_off s a1).1,
        (mmc_pwrseq_simple_power_off s a1).2, cnt) := by
  have h2 := off_match_not_on buf hOff
  obtain ⟨ce, pd, od, ck, rg, vr⟩ := s
  cases ck <;> cases ce <;> cases rg <;> cases a1 <;>
    simp [pwr_gpio_store, hOff, h2, mmc_pwrseq_simple_power_off,
      mmc_pwrseq_simple_set_gpios_value, notErr]

/-- C7 witness: writing "0\n" to a powered instance equals power-off. -/
theorem pwr_gpio_store_off_eq_power_off_witness :
    pwr_gpio_store { clkState with clk_enabled := true } ['0', '\n']
        true false 2 =
      ((mmc_pwrseq_simple_power_off
          { clkState with clk_enabled := true } true).1,
        (mmc_pwrseq_simple_power_off
          { clkState with clk_enabled := true } true).2, 2) :=
  pwr_gpio_store_off_eq_power_off { clkState with clk_enabled := true }
    ['0', '\n'] true false 2 (by decide)

/-- A concrete instance with a regulator bound. -/
def vrefState : MmcPwrseqSimple :=
  { clkState with vref := Except.ok () }

/-- C8 counterexample: the store handler casts the parsed `long` to
`int` before calling `regulator_set_voltage`, so writing the single
integer 4294967296 (which `kstrtol` accepts) sets the target to [0, 0],
not to [4294967296, 4294967296] as the claim states. -/
theorem vref_store_truncation_cex :
    kstrtol ['4', '2', '9', '4', '9', '6', '7', '2', '9', '6']
      = some 4294967296 ∧
    (vref_uV_store vrefState
        ['4', '2', '9', '4', '9', '6', '7', '2', '9', '6'] 10).1 =
      [Event.regulatorSetVoltage 0 0] ∧
    ¬ (vref_uV_store vrefState
        ['4', '2', '9', '4', '9', '6', '7', '2', '9', '6'] 10).1 =
      [Event.regulatorSetVoltage 4294967296 4294967296] := by
  decide

/-- C8 amended: every write returns the full count; with no regulator
bound, no regulator call is made and the read returns "na"; with a
regulator bound, a `kstrtol`-accepted single integer v sets the target
to [t, t] and two `sscanf`-accepted integers set it to [tmin, tmax],
where each t is the value truncated to 32-bit two's complement (the
identity on values in `int` range); any other input makes no call. -/
theorem vref_uV_spec (s : MmcPwrseqSimple) (buf : List Char) (cnt : Nat)
    (uV : Int) :
    (vref_uV_store s buf cnt).2 = cnt ∧
    (∀ e, s.vref = Except.error e →
      (vref_uV_store s buf cnt).1 = [] ∧
      vref_uV_show s uV = ['n', 'a', '\n']) ∧
    (∀ u, s.vref = Except.ok u → ∀ v, kstrtol buf = some v →
      (vref_uV_store s buf cnt).1 =
        [Event.regulatorSetVoltage (toSigned 32 v) (toSigned 32 v)]) ∧
    (∀ u, s.vref = Except.ok u → kstrtol buf = none →
      ∀ mn mx, sscanf_two_ld buf = some (mn, mx) →
      (vref_uV_store s buf cnt).1 =
        [Event.regulatorSetVoltage (toSigned 32 mn) (toSigned 32 mx)]) ∧
    (∀ u, s.vref = Except.ok u → kstrtol buf = none →
      sscanf_two_ld buf = none →
      (vref_uV_store s buf cnt).1 = []) := by
  obtain ⟨ce, pd, od, ck, rg, vr⟩ := s
  cases vr <;> cases hk : kstrtol buf <;> cases hs : sscanf_two_ld buf <;>
    simp [vref_uV_store, vref_uV_show, hk, hs] <;>
    (rintro mn mx rfl; exact ⟨rfl, rfl⟩)

/-- C8 amended, witness: writing "3300000" with a regulator bound sets
the target to [3300000, 3300000] and returns the count. -/
theorem vref_uV_spec_witness :
    (vref_uV_store vrefState ['3', '3', '0', '0', '0', '0', '0'] 7).1 =
      [Event.regulatorSetVoltage 3300000 3300000] ∧
    (vref_uV_store vrefState ['3', '3', '0', '0', '0', '0', '0'] 7).2
      = 7 := by
  have h := vref_uV_spec vrefState ['3', '3', '0', '0', '0', '0', '0'] 7 0
  have h2 := h.2.2.1 () rfl 3300000 (by decide)
  rw [h2]
  exact ⟨by decide, h.1⟩

/-- A concrete probe environment: clock absent, GPIO lookup unsupported,
one configured delay, regulator bound, registration succeeding. -/
def env0 : ProbeEnv :=
  { kzalloc_ok := true
    ext_clk := Except.error (-ENOENT)
    reset_gpios := Except.error (-ENOSYS)
    post_power_on_delay_ms := some 7
    power_off_delay_us := none
    vref := Except.ok ()
    register_ret := 0 }

/-- C9: the probe succeeds (reaching registration and returning its
result) whenever the clock acquisition is ok or failed with `-ENOENT`
and the GPIO acquisition is ok or failed with `-ENOENT`/`-ENOSYS`,
installing `pwr_gpio` unconditionally and `vref_uV` exactly when the
regulator was acquired; any other clock or GPIO acquisition error aborts
the probe with that error and installs nothing. -/
theorem probe_spec (env : ProbeEnv) :
    (env.kzalloc_ok = true →
      (env.ext_clk = Except.ok () ∨ env.ext_clk = Except.error (-ENOENT)) →
      (env.reset_gpios = Except.error (-ENOENT) ∨
        env.reset_gpios = Except.error (-ENOSYS) ∨
        ∃ n, env.reset_gpios = Except.ok n) →
      mmc_pwrseq_simple_probe env =
        { ret := env.register_ret
          pwr_gpio_attr := true
          vref_uV_attr := notErr env.vref
          pwrseq := some
            { clk_enabled := false
              post_power_on_delay_ms := env.post_power_on_delay_ms.getD 0
              power_off_delay_us := env.power_off_delay_us.getD 0
              ext_clk := env.ext_clk
              reset_gpios := env.reset_gpios
              vref := env.vref } }) ∧
    (∀ e, env.kzalloc_ok = true → env.ext_clk = Except.error e →
      e ≠ -ENOENT →
      mmc_pwrseq_simple_probe env =
        { ret := e, pwr_gpio_attr := false, vref_uV_attr := false,
          pwrseq := none }) ∧
    (∀ e, env.kzalloc_ok = true →
      (env.ext_clk = Except.ok () ∨ env.ext_clk = Except.error (-ENOENT)) →
      env.reset_gpios = Except.error e → e ≠ -ENOENT → e ≠ -ENOSYS →
      mmc_pwrseq_simple_probe env =
        { ret := e, pwr_gpio_attr := false, vref_uV_attr := false,
          pwrseq := none }) := by
  refine ⟨?_, ?_, ?_⟩
  · intro hk hclk hrg
    rcases hclk with h1 | h1 <;> rcases hrg with h2 | h2 | ⟨n, h2⟩ <;>
      simp [mmc_pwrseq_simple_probe, hk, h1, h2, fatal_err, notErr]
  · intro e hk h1 hne
    simp [mmc_pwrseq_simple_probe, hk, h1, fatal_err, hne]
  · intro e hk hclk h2 hn1 hn2
    rcases hclk with h1 | h1 <;>
      simp [mmc_pwrseq_simple_probe, hk, h1, h2, fatal_err, hn1, hn2]

/-- C9 witness: a probe with clock absent, GPIO lookup unsupported and a
regulator bound succeeds and installs both attributes. -/
theorem probe_spec_witness :
    mmc_pwrseq_simple_probe env0 =
      { ret := 0
        pwr_gpio_attr := true
        vref_uV_attr := true
        pwrseq := some
          { clk_enabled := false
            post_power_on_delay_ms := 7
            power_off_delay_us := 0
            ext_clk := Except.error (-ENOENT)
            reset_gpios := Except.error (-ENOSYS)
            vref := Except.ok () } } := by
  have h := (probe_spec env0).1 rfl (Or.inr rfl) (Or.inr (Or.inl rfl))
  rw [h]
  decide

/-- No invocation changes `ext_clk`, and when no clock handle is present
none changes `clk_enabled` either. -/
theorem runOp_clk_absent (s : MmcPwrseqSimple) (op : Op)
    (h : notErr s.ext_clk = false) :
    (runOp s op).clk_enabled = s.clk_enabled ∧
    (runOp s op).ext_clk = s.ext_clk := by
  obtain ⟨ce, pd, od, ck, rg, vr⟩ := s
  cases op <;>
    simp only [runOp, mmc_pwrseq_simple_pre_power_on,
      mmc_pwrseq_simple_post_power_on, mmc_pwrseq_simple_power_off,
      pwr_gpio_store] <;>
    (repeat' split) <;> simp_all [notErr]

/-- C10: on an instance with no gating clock bound and `clk_enabled`
false (as probe constructs it), `pwr_gpio_show` reads "off" after any
sequence of lifecycle callbacks and sysfs writes whatsoever. -/
theorem pwr_gpio_show_no_clk (s : MmcPwrseqSimple) (ops : List Op)
    (h1 : notErr s.ext_clk = false) (h2 : s.clk_enabled = false) :
    pwr_gpio_show (runOps s ops) = ['o', 'f', 'f', '\n'] := by
  induction ops generalizing s with
  | nil => simp [runOps, pwr_gpio_show, h2]
  | cons op t ih =>
      have h := runOp_clk_absent s op h1
      have hstep : runOps s (op :: t) = runOps (runOp s op) t := rfl
      rw [hstep]
      exact ih (runOp s op) (h.2 ▸ h1) (h.1.trans h2)

/-- A concrete instance with reset lines and a delay but no clock. -/
def noClkGpioState : MmcPwrseqSimple :=
  { noClkState with reset_gpios := Except.ok 2, post_power_on_delay_ms := 7 }

/-- C10 witness: immediately after a write of "on" — which did pulse the
two reset lines and sleep the 7 ms delay — the read still shows "off". -/
theorem pwr_gpio_show_no_clk_witness :
    pwr_gpio_show
        (runOps noClkGpioState [Op.pwrStore ['o', 'n'] true true 2]) =
      ['o', 'f', 'f', '\n'] ∧
    (pwr_gpio_store noClkGpioState ['o', 'n'] true true 2).2.1 =
      [Event.gpioSetArray 2 [true, true], Event.gpioSetArray 2 [false, false],
        Event.msleep 7] := by
  refine ⟨?_, by decide⟩
  exact pwr_gpio_show_no_clk noClkGpioState
    [Op.pwrStore ['o', 'n'] true true 2] (by decide) (by decide)

end PwrseqSimple
